import Mathlib

/-!
Verification development for the Fossil-Viewer client-side data layer
(`src/contexts/FossilCacheContext.tsx`).  The TypeScript code is shallowly
embedded: JavaScript strings are lists of code points, the Supabase query
builder is a record of the predicate clauses / ordering / range the code
attaches to it, the remote backend is a record holding the table rows and
the injectable outcome of each remote call, and the React state hooks are
one explicit `State` record threaded through the operations.  Each fetch
operation returns the new state, the promise outcome, and the number of
remote calls it issued.
-/

set_option maxHeartbeats 1000000

namespace FossilViewer

/-- JavaScript strings, modelled as lists of code points. -/
abbrev Str := List Nat

/-- Embed a Lean string literal as a code-point list. -/
def strLit (s : String) : Str := s.toList.map Char.toNat

/-- Model of `Char.toLowerCase` on a single code point (ASCII range, which is
all the code under verification relies on). -/
def lowerCode (c : Nat) : Nat := if 65 ≤ c ∧ c ≤ 90 then c + 32 else c

/-- Code points removed by JavaScript `String.prototype.trim`. -/
def isWS (c : Nat) : Bool :=
  decide (c = 9 ∨ c = 10 ∨ c = 11 ∨ c = 12 ∨ c = 13 ∨ c = 32 ∨ c = 160 ∨
          c = 8232 ∨ c = 8233 ∨ c = 65279)

/-- Model of `String.prototype.trim`. -/
def jsTrim (s : Str) : Str :=
  ((s.dropWhile isWS).reverse.dropWhile isWS).reverse

/-- Model of `String.prototype.toLowerCase`. -/
def jsToLower (s : Str) : Str := s.map lowerCode

/-- Helper for `isSubstr`: the first list starts the second list. -/
def leadsWith : Str → Str → Bool
  | [], _ => true
  | _ :: _, [] => false
  | a :: as, b :: bs => a == b && leadsWith as bs

/-- Model of `String.prototype.includes`: `needle` occurs contiguously in
`hay`. -/
def isSubstr (needle : Str) : Str → Bool
  | [] => needle.isEmpty
  | b :: bs => leadsWith needle (b :: bs) || isSubstr needle bs

/-- Strict lexicographic (code-unit) comparison, as JavaScript `<` and the
backend's text ordering. -/
def strLt : Str → Str → Bool
  | _, [] => false
  | [], _ :: _ => true
  | a :: as, b :: bs => a.blt b || (a == b && strLt as bs)

/-- Non-strict lexicographic comparison. -/
def strLe (a b : Str) : Bool := !(strLt b a)

/-- Decimal rendering of a natural number, as in a template literal. -/
def natToStr (n : Nat) : Str := (Nat.repr n).toList.map Char.toNat

/-- The `Fossil` row interface. -/
structure Fossil where
  id : Str
  user_id : Str
  species : Option Str
  description : Str
  location : Option Str
  discovery_date : Option Str
  tags : Option (List Str)
  image_url : Str
  created_at : Str
  updated_at : Str
deriving DecidableEq

/-- The `SearchFilters` interface: every field optional. -/
structure SearchFilters where
  searchQuery : Option Str
  species : Option Str
  location : Option Str
  tags : Option (List Str)
  dateFrom : Option Str
  dateTo : Option Str
deriving DecidableEq

/-- JavaScript truthiness of an optional string: `undefined` and the empty
string are falsy. -/
def strTruthy : Option Str → Bool
  | none => false
  | some s => !s.isEmpty

/-- JavaScript truthiness of `tags?.length`: `undefined` and an empty list
are falsy. -/
def tagsTruthy : Option (List Str) → Bool
  | none => false
  | some ts => !ts.isEmpty

/-! ### JSON serialization (`JSON.stringify`) of a `SearchFilters` value

`JSON.stringify` renders the present (non-`undefined`) fields in declaration
order, quoting string values and escaping quote and backslash characters.
The code only ever compares serializations for equality or embeds them in a
cache key, so this faithful-equality model is what the claims need. -/

/-- Escape quote (34) and backslash (92) with a backslash. -/
def jsonEscape : Str → Str
  | [] => []
  | c :: cs => (if c == 34 || c == 92 then [92, c] else [c]) ++ jsonEscape cs

/-- A JSON string literal: quoted, escaped. -/
def jsonStr (s : Str) : Str := 34 :: (jsonEscape s ++ [34])

/-- Join serialized pieces with commas (code 44). -/
def joinComma : List Str → Str
  | [] => []
  | [s] => s
  | s :: s2 :: rest => s ++ 44 :: joinComma (s2 :: rest)

/-- A JSON array of strings (brackets are codes 91 and 93). -/
def jsonStrArr (ts : List Str) : Str := 91 :: (joinComma (ts.map jsonStr) ++ [93])

/-- One `"name":value` member (colon is code 58). -/
def jsonMember (name : String) (v : Str) : Str := jsonStr (strLit name) ++ 58 :: v

/-- `JSON.stringify` of a `SearchFilters` object (braces are codes 123/125);
`undefined` fields are omitted. -/
def serializeFilters (f : SearchFilters) : Str :=
  let fields : List Str :=
    (match f.searchQuery with | some v => [jsonMember "searchQuery" (jsonStr v)] | none => [])
    ++ (match f.species with | some v => [jsonMember "species" (jsonStr v)] | none => [])
    ++ (match f.location with | some v => [jsonMember "location" (jsonStr v)] | none => [])
    ++ (match f.tags with | some ts => [jsonMember "tags" (jsonStrArr ts)] | none => [])
    ++ (match f.dateFrom with | some v => [jsonMember "dateFrom" (jsonStr v)] | none => [])
    ++ (match f.dateTo with | some v => [jsonMember "dateTo" (jsonStr v)] | none => [])
  123 :: (joinComma fields ++ [125])

/-- `JSON.stringify` applied to a possibly-`undefined` filters argument:
`JSON.stringify(undefined)` is `undefined`, modelled as `none`. -/
def serializeO : Option SearchFilters → Option Str :=
  Option.map serializeFilters

/-- `buildCacheKey` from the source: `page-${page}` or
`page-${page}-${JSON.stringify(filters)}`. -/
def buildCacheKey (page : Nat) (filters : Option SearchFilters) : Str :=
  match filters with
  | none => strLit "page-" ++ natToStr page
  | some f => strLit "page-" ++ natToStr page ++ strLit "-" ++ serializeFilters f

/-! ### The Supabase query builder and its semantics

A query value records the predicate clauses, ordering directives and range
that the code attaches to the builder; `runQuery` gives the backend's
semantics over a list of table rows. -/

/-- The state of a Supabase query builder for the `fossils` table. -/
structure Query where
  speciesPat : Option Str
  locationPat : Option Str
  tagsAll : Option (List Str)
  fromDate : Option Str
  toDate : Option Str
  userEq : Option Str
  order : List (String × Bool)
  qrange : Option (Nat × Nat)
deriving DecidableEq

/-- `supabase.from('fossils').select('*')` — no clauses yet. -/
def baseQuery : Query := ⟨none, none, none, none, none, none, [], none⟩

/-- `.order(col, { ascending })`. -/
def orderBy (q : Query) (col : String) (asc : Bool) : Query :=
  { q with order := q.order ++ [(col, asc)] }

/-- `.range(from, to)` (inclusive bounds). -/
def withRange (q : Query) (a b : Nat) : Query :=
  { q with qrange := some (a, b) }

/-- `.eq('user_id', uid)`. -/
def withUserEq (q : Query) (uid : Str) : Query :=
  { q with userEq := some uid }

/-- `applyFilters` from the source: conjoin each clause only when its field
is truthy.  The search query is never consulted here. -/
def applyFilters (q : Query) (filters : Option SearchFilters) : Query :=
  match filters with
  | none => q
  | some f =>
    let q1 := if strTruthy f.species then { q with speciesPat := f.species } else q
    let q2 := if strTruthy f.location then { q1 with locationPat := f.location } else q1
    let q3 := if tagsTruthy f.tags then { q2 with tagsAll := f.tags } else q2
    let q4 := if strTruthy f.dateFrom then { q3 with fromDate := f.dateFrom } else q3
    let q5 := if strTruthy f.dateTo then { q4 with toDate := f.dateTo } else q4
    q5

/-- Row-level semantics of the conjoined predicate clauses.  `ilike`
with a `%v%` pattern is a case-insensitive substring test; a `NULL`
column never satisfies a clause; `contains` requires every filter tag to
occur among the row's tags; date bounds compare lexicographically (ISO
dates). -/
def rowMatches (q : Query) (f : Fossil) : Bool :=
  (match q.speciesPat with
   | none => true
   | some p => match f.species with
     | none => false
     | some s => isSubstr (jsToLower p) (jsToLower s))
  && (match q.locationPat with
   | none => true
   | some p => match f.location with
     | none => false
     | some s => isSubstr (jsToLower p) (jsToLower s))
  && (match q.tagsAll with
   | none => true
   | some ts => match f.tags with
     | none => false
     | some rts => ts.all (fun t => rts.contains t))
  && (match q.fromDate with
   | none => true
   | some d => match f.discovery_date with
     | none => false
     | some dd => strLe d dd)
  && (match q.toDate with
   | none => true
   | some d => match f.discovery_date with
     | none => false
     | some dd => strLe dd d)
  && (match q.userEq with
   | none => true
   | some u => f.user_id == u)

/-- Value of an order-by column on a row. -/
def colVal (col : String) (f : Fossil) : Option Str :=
  if col = "created_at" then some f.created_at
  else if col = "updated_at" then some f.updated_at
  else if col = "discovery_date" then f.discovery_date
  else none

/-- Strict "a sorts before b" for one order key; ascending puts nulls
last, descending puts nulls first (the backend's defaults). -/
def ltKey (asc : Bool) (ka kb : Option Str) : Bool :=
  match asc, ka, kb with
  | _, none, none => false
  | true, none, some _ => false
  | true, some _, none => true
  | false, none, some _ => true
  | false, some _, none => false
  | true, some a, some b => strLt a b
  | false, some a, some b => strLt b a

/-- Stable insertion: keep `y` before `x` exactly when `y` sorts strictly
before `x`. -/
def insertBy (lt : Fossil → Fossil → Bool) (x : Fossil) : List Fossil → List Fossil
  | [] => [x]
  | y :: ys => if lt y x then y :: insertBy lt x ys else x :: y :: ys

/-- Stable insertion sort. -/
def sortBy (lt : Fossil → Fossil → Bool) : List Fossil → List Fossil
  | [] => []
  | x :: xs => insertBy lt x (sortBy lt xs)

/-- Apply the order directives: the first directive is the primary key, so
it is the last stable sort applied. -/
def applyOrder (ord : List (String × Bool)) (rows : List Fossil) : List Fossil :=
  ord.foldr
    (fun ob rs => sortBy (fun a b => ltKey ob.2 (colVal ob.1 a) (colVal ob.1 b)) rs)
    rows

/-- Inclusive `range(a, b)` slicing. -/
def applyRange (a b : Nat) (l : List Fossil) : List Fossil :=
  (l.drop a).take (b + 1 - a)

/-- Execute a data query against the table rows. -/
def runQuery (db : List Fossil) (q : Query) : List Fossil :=
  let sorted := applyOrder q.order (db.filter (rowMatches q))
  match q.qrange with
  | none => sorted
  | some ab => applyRange ab.1 ab.2 sorted

/-- Execute a counted head query: the exact number of matching rows. -/
def countRows (db : List Fossil) (q : Query) : Nat :=
  (db.filter (rowMatches q)).length

/-! ### Context state, backend, and the operations under verification -/

/-- A value thrown by a rejected remote call.  `isErrorObj` records whether
it is an `instanceof Error` (so `getErrorMessage` uses its `.message`). -/
structure JsErr where
  message : Str
  isErrorObj : Bool
deriving DecidableEq

/-- Default message used by `getErrorMessage`. -/
def failedLoadMsg : Str := strLit "Failed to load fossils"

/-- The locally-generated authentication-required message. -/
def loginRequiredMsg : Str := strLit "You must be logged in to view your fossils"

/-- `getErrorMessage` from the source (with its default second argument). -/
def getErrorMessage (e : JsErr) : Str :=
  if e.isErrorObj then e.message else failedLoadMsg

/-- One entry of the keyed page cache. -/
structure CacheEntry where
  fossils : List Fossil
  totalCount : Nat
deriving DecidableEq

/-- The provider's React state, as one record. -/
structure State where
  allFossils : List Fossil
  userFossils : List Fossil
  allFossilsCount : Nat
  loadingAll : Bool
  loadingUser : Bool
  errorAll : Str
  errorUser : Str
  allFossilsCache : List (Str × CacheEntry)
  userFossilsCached : Bool
  userFossilsFilters : Option SearchFilters
deriving DecidableEq

/-- The initial state of a freshly mounted provider. -/
def initialState : State :=
  ⟨[], [], 0, false, false, [], [], [], false, none⟩

/-- `Map.get` on the keyed cache. -/
def lookupCache (k : Str) : List (Str × CacheEntry) → Option CacheEntry
  | [] => none
  | kv :: rest => if kv.1 == k then some kv.2 else lookupCache k rest

/-- `Map.set` on the keyed cache. -/
def cacheSet (k : Str) (v : CacheEntry) : List (Str × CacheEntry) → List (Str × CacheEntry)
  | [] => [(k, v)]
  | kv :: rest => if kv.1 == k then (k, v) :: rest else kv :: cacheSet k v rest

/-- The remote backend: the table rows plus the injectable outcome of each
remote call a fetch may issue. -/
structure Backend where
  db : List Fossil
  countError : Option JsErr
  dataError : Option JsErr
  allDataError : Option JsErr
  currentUser : Option Str
  userDataError : Option JsErr
deriving DecidableEq

/-- The filter callback of `filterFossils`:
`matchesSpecies || matchesLocation || matchesDescription || matchesTags`,
where an absent optional field contributes `false` (the `?.` / `|| false`
pattern). -/
def fossilMatchesTerm (searchTerm : Str) (fossil : Fossil) : Bool :=
  (match fossil.species with
   | some s => isSubstr searchTerm (jsToLower s)
   | none => false)
  || (match fossil.location with
   | some s => isSubstr searchTerm (jsToLower s)
   | none => false)
  || isSubstr searchTerm (jsToLower fossil.description)
  || (match fossil.tags with
   | some ts => ts.any (fun t => isSubstr searchTerm (jsToLower t))
   | none => false)

/-- `filterFossils` from the source: the client-side search refiner.  The
search term is the query lowercased and then trimmed. -/
def filterFossils (fossils : List Fossil) (filters : Option SearchFilters) : List Fossil :=
  match filters with
  | none => fossils
  | some f =>
    match f.searchQuery with
    | none => fossils
    | some q =>
      if q.isEmpty then fossils
      else
        if (jsTrim (jsToLower q)).isEmpty then fossils
        else fossils.filter (fossilMatchesTerm (jsTrim (jsToLower q)))

/-- `removeSearchQuery` from the source: strip the free-text field when it
is truthy. -/
def removeSearchQuery : Option SearchFilters → Option SearchFilters
  | none => none
  | some f =>
    if strTruthy f.searchQuery then some { f with searchQuery := none } else some f

/-- Truthiness of `filters?.searchQuery`. -/
def searchActive : Option SearchFilters → Bool
  | none => false
  | some f => strTruthy f.searchQuery

/-- The cache-lookup guard of `fetchAllFossils`: no filters at all, or
every filter field falsy. -/
def cacheEligible : Option SearchFilters → Bool
  | none => true
  | some f =>
    !strTruthy f.searchQuery && !strTruthy f.species && !strTruthy f.location
      && !tagsTruthy f.tags && !strTruthy f.dateFrom && !strTruthy f.dateTo

/-- `from = (page - 1) * pageSize`. -/
def paginationFrom (page pageSize : Nat) : Nat := (page - 1) * pageSize

/-- `to = from + pageSize - 1` (inclusive end). -/
def paginationTo (page pageSize : Nat) : Nat :=
  paginationFrom page pageSize + pageSize - 1

/-- `Math.ceil(totalCount / pageSize)` as computed by the all-fossils page
(`totalPages`). -/
def totalPages (totalCount pageSize : Nat) : Nat :=
  (totalCount + pageSize - 1) / pageSize

/-- The counted head query `fetchAllFossils` issues. -/
def countQueryFor (filters : Option SearchFilters) : Query :=
  applyFilters baseQuery (removeSearchQuery filters)

/-- The paginated data query `fetchAllFossils` issues. -/
def dataQueryFor (page pageSize : Nat) (filters : Option SearchFilters) : Query :=
  withRange (orderBy (applyFilters baseQuery (removeSearchQuery filters)) "created_at" false)
    (paginationFrom page pageSize) (paginationTo page pageSize)

/-- The unpaginated data query `fetchAllFossils` issues when a free-text
query is active. -/
def allDataQueryFor (filters : Option SearchFilters) : Query :=
  orderBy (applyFilters baseQuery (removeSearchQuery filters)) "created_at" false

/-- One fetch result, `{ fossils, totalCount }`. -/
structure FetchResult where
  fossils : List Fossil
  totalCount : Nat
deriving DecidableEq

instance {ε α : Type} [DecidableEq ε] [DecidableEq α] : DecidableEq (Except ε α) := fun x y =>
  match x, y with
  | .ok a, .ok b =>
    if h : a = b then isTrue (by rw [h])
    else isFalse (by intro hc; cases hc; exact h rfl)
  | .error a, .error b =>
    if h : a = b then isTrue (by rw [h])
    else isFalse (by intro hc; cases hc; exact h rfl)
  | .ok _, .error _ => isFalse (by intro hc; cases hc)
  | .error _, .ok _ => isFalse (by intro hc; cases hc)

/-- The `try` block of `fetchAllFossils` together with its `catch`
(record the message, rethrow) and `finally` (clear the loading flag);
the third component counts the remote queries issued. -/
def fetchAllMiss (be : Backend) (st : State) (page pageSize : Nat)
    (filters : Option SearchFilters) : State × Except JsErr FetchResult × Nat :=
  let st1 := { st with loadingAll := true, errorAll := [] }
  let totalCount :=
    match be.countError with
    | some _ => 0
    | none => countRows be.db (countQueryFor filters)
  match be.dataError with
  | some e =>
    ({ st1 with errorAll := getErrorMessage e, loadingAll := false }, Except.error e, 2)
  | none =>
    let fossils := runQuery be.db (dataQueryFor page pageSize filters)
    if searchActive filters then
      let allData :=
        match be.allDataError with
        | some _ => []
        | none => runQuery be.db (allDataQueryFor filters)
      let filteredAll := filterFossils allData filters
      let _pageFiltered := filterFossils fossils filters
      let sliced := (filteredAll.drop (paginationFrom page pageSize)).take pageSize
      ({ st1 with allFossilsCount := filteredAll.length, allFossils := sliced,
                  loadingAll := false },
       Except.ok ⟨sliced, sliced.length⟩, 3)
    else
      ({ st1 with allFossilsCount := totalCount, allFossils := fossils,
                  allFossilsCache :=
                    cacheSet (buildCacheKey page filters)
                      ⟨fossils, if searchActive filters then fossils.length else totalCount⟩
                      st1.allFossilsCache,
                  loadingAll := false },
       Except.ok ⟨fossils, if searchActive filters then fossils.length else totalCount⟩, 2)

/-- `fetchAllFossils` from the source: keyed-cache lookup when the filters
qualify, otherwise the full fetch. -/
def fetchAllFossils (be : Backend) (st : State) (page pageSize : Nat)
    (filters : Option SearchFilters) : State × Except JsErr FetchResult × Nat :=
  if cacheEligible filters then
    match lookupCache (buildCacheKey page filters) st.allFossilsCache with
    | some cached =>
      ({ st with allFossils := cached.fossils, allFossilsCount := cached.totalCount },
       Except.ok ⟨cached.fossils, cached.totalCount⟩, 0)
    | none => fetchAllMiss be st page pageSize filters
  else fetchAllMiss be st page pageSize filters

/-- The `try` body of `fetchUserFossils` on its two remote calls
(`auth.getUser`, then the user's data query); the pair counts
(auth calls, fossils-table queries). -/
def fetchUserFossilsTry (be : Backend) (st1 : State)
    (filters : Option SearchFilters) : Except JsErr State × Nat × Nat :=
  match be.currentUser with
  | none =>
    (Except.ok { st1 with errorUser := loginRequiredMsg, loadingUser := false }, 1, 0)
  | some uid =>
    match be.userDataError with
    | some e => (Except.error e, 1, 1)
    | none =>
      let q := orderBy (applyFilters (withUserEq baseQuery uid) (removeSearchQuery filters))
        "created_at" false
      let data := runQuery be.db q
      let fossils := if searchActive filters then filterFossils data filters else data
      (Except.ok { st1 with userFossils := fossils, userFossilsCached := true,
                            userFossilsFilters := filters }, 1, 1)

/-- `fetchUserFossils` from the source: single-flag cache check, then the
`try` body with its `catch` (record the message, no rethrow) and `finally`
(clear the loading flag).  The promise outcome is the second component. -/
def fetchUserFossils (be : Backend) (st : State)
    (filters : Option SearchFilters) : State × Except JsErr Unit × Nat × Nat :=
  if st.userFossilsCached && (serializeO filters == serializeO st.userFossilsFilters) then
    (st, Except.ok (), 0, 0)
  else
    let st1 := { st with loadingUser := true, errorUser := [] }
    match fetchUserFossilsTry be st1 filters with
    | (Except.ok st2, a, t) =>
      ({ st2 with loadingUser := false }, Except.ok (), a, t)
    | (Except.error e, a, t) =>
      ({ st1 with errorUser := getErrorMessage e, loadingUser := false }, Except.ok (), a, t)

/-- `clearCache` from the source. -/
def clearCache (st : State) : State :=
  { st with allFossils := [], userFossils := [], allFossilsCache := [],
            userFossilsCached := false, errorAll := [], errorUser := [] }

/-! ### Claim-side definitions (phrased from the specification's words) -/

/-- Claim side (C3): the search query is absent or empty after trimming. -/
def searchTrimEmpty : Option SearchFilters → Bool
  | none => true
  | some f =>
    match f.searchQuery with
    | none => true
    | some q => (jsTrim q).isEmpty

/-- Claim side (C3): the lowercased trimmed query. -/
def claimNeedle (q : Str) : Str := jsToLower (jsTrim q)

/-- Claim side (C3): the query is a substring of the lowercased species
(when present), location (when present), description, or any tag. -/
def claimSearchHit (needle : Str) (f : Fossil) : Bool :=
  (match f.species with
   | some s => isSubstr needle (jsToLower s)
   | none => false)
  || (match f.location with
   | some s => isSubstr needle (jsToLower s)
   | none => false)
  || isSubstr needle (jsToLower f.description)
  || (match f.tags with
   | some ts => ts.any (fun t => isSubstr needle (jsToLower t))
   | none => false)

/-- Claim side (C3): the search query of a filters value, defaulting to the
empty string. -/
def queryOf (filters : Option SearchFilters) : Str :=
  match filters with
  | none => []
  | some f => f.searchQuery.getD []

/-- Claim side (C4): the ordering the claim asserts for the data query —
discovery date descending, then creation timestamp descending. -/
def claimedOrder : List (String × Bool) :=
  [("discovery_date", false), ("created_at", false)]

/-- A row with every required field empty, used for concrete instances. -/
def blankFossil : Fossil :=
  ⟨[], [], none, [], none, none, none, [], [], []⟩

/-- Concrete row whose description contains the letter `a`; the newest by
creation timestamp. -/
def exFossilA : Fossil :=
  ⟨strLit "a1", strLit "u1", none, strLit "amber", none, none, none,
   strLit "img", strLit "2024-02", strLit "2024-02"⟩

/-- Concrete row whose description also contains the letter `a`; older. -/
def exFossilB : Fossil :=
  ⟨strLit "b2", strLit "u2", none, strLit "agate", none, none, none,
   strLit "img", strLit "2024-01", strLit "2024-01"⟩

/-- Concrete filter set with only the free-text query `a`. -/
def exSearch : SearchFilters :=
  ⟨some (strLit "a"), none, none, none, none, none⟩

/-- Concrete filter set with only the species field set. -/
def speciesOnly : SearchFilters :=
  ⟨none, some (strLit "x"), none, none, none, none⟩

/-- Concrete backend with the two example rows and no failures. -/
def exBackend : Backend :=
  ⟨[exFossilA, exFossilB], none, none, none, none, none⟩

/-- Concrete backend with no rows, an authenticated user `u`, and no
failures. -/
def userBackend : Backend :=
  ⟨[], none, none, none, some (strLit "u"), none⟩

/-- Concrete backend whose data query rejects. -/
def failingBackend : Backend :=
  ⟨[], none, some ⟨strLit "boom", true⟩, none, none, none⟩

/-! ### Helper lemmas -/

theorem isWS_lowerCode (c : Nat) : isWS (lowerCode c) = isWS c := by
  unfold lowerCode isWS
  split
  · rw [decide_eq_decide]
    omega
  · rfl

theorem dropWhile_isWS_map_lowerCode (l : Str) :
    (l.dropWhile isWS).map lowerCode = (l.map lowerCode).dropWhile isWS := by
  have hp : (isWS ∘ lowerCode) = isWS := funext fun c => isWS_lowerCode c
  rw [List.dropWhile_map, hp]

theorem jsToLower_jsTrim (s : Str) : jsToLower (jsTrim s) = jsTrim (jsToLower s) := by
  simp only [jsTrim, jsToLower, List.map_reverse, dropWhile_isWS_map_lowerCode]

theorem jsTrim_lower_isEmpty (q : Str) :
    (jsTrim (jsToLower q)).isEmpty = (jsTrim q).isEmpty := by
  rw [← jsToLower_jsTrim, jsToLower]
  cases jsTrim q <;> rfl

theorem lookupCache_cacheSet (k : Str) (v : CacheEntry) (m : List (Str × CacheEntry)) :
    lookupCache k (cacheSet k v m) = some v := by
  induction m with
  | nil => simp [cacheSet, lookupCache]
  | cons kv rest ih =>
    unfold cacheSet
    by_cases h : kv.1 == k
    · simp only [h, if_pos]
      simp [lookupCache]
    · simp only [h]
      simp only [Bool.false_eq_true, if_neg, lookupCache, ih]
      simp [h]

theorem totalPages_le_iff (t p n : Nat) (hp : 0 < p) :
    totalPages t p ≤ n ↔ t ≤ n * p := by
  unfold totalPages
  rw [← Nat.lt_succ_iff, Nat.div_lt_iff_lt_mul hp, Nat.succ_mul]
  omega

theorem totalPages_eq_ceil (t p : Nat) (hp : 0 < p) :
    totalPages t p = ⌈(t : ℚ) / (p : ℚ)⌉₊ := by
  have hp' : (0 : ℚ) < (p : ℚ) := by exact_mod_cast hp
  have h2 : ∀ n : ℕ, ⌈(t : ℚ) / (p : ℚ)⌉₊ ≤ n ↔ t ≤ n * p := by
    intro n
    rw [Nat.ceil_le, div_le_iff₀ hp']
    constructor <;> intro h <;> exact_mod_cast h
  apply Nat.le_antisymm
  · exact (totalPages_le_iff t p _ hp).mpr ((h2 _).mp le_rfl)
  · exact (h2 _).mpr ((totalPages_le_iff t p _ hp).mp le_rfl)

theorem searchActive_false_of_cacheEligible (filters : Option SearchFilters)
    (h : cacheEligible filters = true) : searchActive filters = false := by
  cases filters with
  | none => rfl
  | some f =>
    simp only [cacheEligible, Bool.and_eq_true, Bool.not_eq_true'] at h
    simp only [searchActive]
    exact h.1.1.1.1.1

theorem cacheEligible_false_of_search (f : SearchFilters)
    (h : strTruthy f.searchQuery = true) : cacheEligible (some f) = false := by
  simp [cacheEligible, h]

theorem applyFilters_order (q : Query) (fs : Option SearchFilters) :
    (applyFilters q fs).order = q.order := by
  cases fs with
  | none => rfl
  | some f =>
    simp only [applyFilters]
    split_ifs <;> rfl

theorem fetchAllMiss_calls_pos (be : Backend) (st : State) (page pageSize : Nat)
    (filters : Option SearchFilters) :
    0 < (fetchAllMiss be st page pageSize filters).2.2 := by
  rcases hd : be.dataError with _ | e
  · by_cases hs : searchActive filters
    · simp [fetchAllMiss, hd, hs]
    · simp [fetchAllMiss, hd, hs]
  · simp [fetchAllMiss, hd]

theorem fetchAllFossils_eq_miss (be : Backend) (st : State) (page pageSize : Nat)
    (filters : Option SearchFilters)
    (hmiss : cacheEligible filters = false
      ∨ lookupCache (buildCacheKey page filters) st.allFossilsCache = none) :
    fetchAllFossils be st page pageSize filters
      = fetchAllMiss be st page pageSize filters := by
  unfold fetchAllFossils
  rcases hmiss with hce | hlk
  · rw [if_neg (by simp [hce])]
  · by_cases hce : cacheEligible filters = true
    · rw [if_pos hce, hlk]
    · rw [if_neg hce]

theorem fetchUserFossils_hit (be : Backend) (st : State) (filters : Option SearchFilters)
    (hg : (st.userFossilsCached
          && (serializeO filters == serializeO st.userFossilsFilters)) = true) :
    fetchUserFossils be st filters = (st, Except.ok (), 0, 0) := by
  unfold fetchUserFossils
  rw [if_pos hg]

theorem fetchUserFossils_fresh (be : Backend) (st : State) (filters : Option SearchFilters)
    (uid : Str)
    (hg : (st.userFossilsCached
          && (serializeO filters == serializeO st.userFossilsFilters)) = false)
    (h1 : be.currentUser = some uid) (h2 : be.userDataError = none) :
    (fetchUserFossils be st filters).1.userFossilsCached = true
    ∧ (fetchUserFossils be st filters).1.userFossilsFilters = filters
    ∧ (fetchUserFossils be st filters).2.2.1 = 1
    ∧ (fetchUserFossils be st filters).2.2.2 = 1 := by
  unfold fetchUserFossils
  rw [if_neg (by simp [hg])]
  simp [fetchUserFossilsTry, h1, h2]

theorem userCache_after_success (be : Backend) (st : State) (filters : Option SearchFilters)
    (uid : Str)
    (h1 : be.currentUser = some uid) (h2 : be.userDataError = none) :
    (fetchUserFossils be st filters).1.userFossilsCached = true
    ∧ serializeO (fetchUserFossils be st filters).1.userFossilsFilters
        = serializeO filters := by
  by_cases hg : (st.userFossilsCached
      && (serializeO filters == serializeO st.userFossilsFilters)) = true
  · rw [fetchUserFossils_hit be st filters hg]
    simp only [Bool.and_eq_true, beq_iff_eq] at hg
    exact ⟨hg.1, hg.2.symm⟩
  · have hg' : (st.userFossilsCached
        && (serializeO filters == serializeO st.userFossilsFilters)) = false := by
      simpa using hg
    obtain ⟨c1, c2, _, _⟩ := fetchUserFossils_fresh be st filters uid hg' h1 h2
    exact ⟨c1, by rw [c2]⟩

/-! ### Claim theorems -/

/-- Claim C3: for every list of Fossils and every optional SearchFilters
value, if `searchQuery` is absent or empty after trimming the search
refiner returns the input list unchanged; otherwise it returns exactly the
subsequence of input fossils, in original relative order, for which the
lowercased trimmed query is a substring of the lowercased species (when
present), location (when present), description, or any tag. -/
theorem claim_C3_search_refiner (fossils : List Fossil) (filters : Option SearchFilters) :
    filterFossils fossils filters =
      if searchTrimEmpty filters then fossils
      else fossils.filter (claimSearchHit (claimNeedle (queryOf filters))) := by
  cases filters with
  | none => rfl
  | some f =>
    cases hq : f.searchQuery with
    | none => simp [filterFossils, searchTrimEmpty, hq]
    | some q =>
      simp only [filterFossils, searchTrimEmpty, queryOf, hq, Option.getD_some]
      by_cases he : q.isEmpty
      · have hq0 : q = [] := by
          cases q with
          | nil => rfl
          | cons a as => simp [List.isEmpty] at he
        subst hq0
        rfl
      · rw [if_neg he]
        by_cases ht : (jsTrim (jsToLower q)).isEmpty
        · rw [if_pos ht]
          have h2 : (jsTrim q).isEmpty = true := by
            rw [← jsTrim_lower_isEmpty]
            exact ht
          rw [if_pos h2]
        · rw [if_neg ht]
          have h2 : ¬((jsTrim q).isEmpty = true) := by
            rw [← jsTrim_lower_isEmpty]
            exact ht
          rw [if_neg h2]
          have hn : claimNeedle q = jsTrim (jsToLower q) := jsToLower_jsTrim q
          rw [hn]
          rfl

/-- Claim C4 (counterexample): at page 1, page size 12, no filters, the
data query issued on a cache miss is not ordered by discovery date
descending followed by creation timestamp descending — contrary to the
claim. -/
theorem claim_C4_counterexample :
    ¬ (dataQueryFor 1 12 none).order = claimedOrder := by decide

/-- Claim C4 (amended): on a cache miss, the data query issued by
`fetchAllFossils` orders results by creation timestamp descending only
(no discovery-date key), with the pagination range applied to that
ordering. -/
theorem claim_C4_amended (page pageSize : Nat) (filters : Option SearchFilters) :
    (dataQueryFor page pageSize filters).order = [("created_at", false)]
    ∧ (dataQueryFor page pageSize filters).qrange =
        some (paginationFrom page pageSize, paginationTo page pageSize) := by
  constructor
  · simp [dataQueryFor, withRange, orderBy, applyFilters_order, baseQuery]
  · rfl

/-- Claim C5: the pagination calculator yields
`offset = (page - 1) * pageSize` with inclusive range end
`offset + pageSize - 1`, and `totalPages = ceil(totalCount / pageSize)`
(characterized both by its Galois property and as the rational ceiling);
in particular `totalCount = 0` gives `totalPages = 0`, and
`totalCount = 25` with `pageSize = 12` gives `totalPages = 3` with exactly
1 item on page 3. -/
theorem claim_C5_pagination (page pageSize totalCount n : Nat) (l : List Fossil)
    (hp : 0 < pageSize) (hl : l.length = 25) :
    paginationFrom page pageSize = (page - 1) * pageSize
    ∧ paginationTo page pageSize = paginationFrom page pageSize + pageSize - 1
    ∧ (totalPages totalCount pageSize ≤ n ↔ totalCount ≤ n * pageSize)
    ∧ totalPages totalCount pageSize = ⌈(totalCount : ℚ) / (pageSize : ℚ)⌉₊
    ∧ totalPages 0 pageSize = 0
    ∧ totalPages 25 12 = 3
    ∧ (applyRange (paginationFrom 3 12) (paginationTo 3 12) l).length = 1 := by
  refine ⟨rfl, rfl, totalPages_le_iff _ _ _ hp, totalPages_eq_ceil _ _ hp, ?_, by decide, ?_⟩
  · unfold totalPages
    apply Nat.div_eq_of_lt
    omega
  · simp [applyRange, paginationFrom, paginationTo, hl]

/-- Witness for claim C5 at page 3, page size 12, total count 25. -/
theorem claim_C5_pagination_witness :
    0 < 12 ∧ (List.replicate 25 blankFossil).length = 25
    ∧ (paginationFrom 3 12 = (3 - 1) * 12
       ∧ paginationTo 3 12 = paginationFrom 3 12 + 12 - 1
       ∧ (totalPages 25 12 ≤ 2 ↔ 25 ≤ 2 * 12)
       ∧ totalPages 25 12 = ⌈(25 : ℚ) / (12 : ℚ)⌉₊
       ∧ totalPages 0 12 = 0
       ∧ totalPages 25 12 = 3
       ∧ (applyRange (paginationFrom 3 12) (paginationTo 3 12)
            (List.replicate 25 blankFossil)).length = 1) :=
  ⟨by decide, by simp,
   claim_C5_pagination 3 12 25 2 (List.replicate 25 blankFossil) (by decide) (by simp)⟩

/-- Claim C7: `clearCache` resets the all-fossils list, the user-fossils
list, the keyed page cache, the user-fossils-loaded flag, and both error
strings; consequently any `fetchAllFossils` call issued after `clearCache`
performs a fresh remote fetch (a positive number of remote queries)
instead of returning a cached entry. -/
theorem claim_C7_clearCache (be : Backend) (st : State) (page pageSize : Nat)
    (filters : Option SearchFilters) :
    (clearCache st).allFossils = []
    ∧ (clearCache st).userFossils = []
    ∧ (clearCache st).allFossilsCache = []
    ∧ (clearCache st).userFossilsCached = false
    ∧ (clearCache st).errorAll = []
    ∧ (clearCache st).errorUser = []
    ∧ 0 < (fetchAllFossils be (clearCache st) page pageSize filters).2.2 := by
  refine ⟨rfl, rfl, rfl, rfl, rfl, rfl, ?_⟩
  unfold fetchAllFossils
  by_cases hce : cacheEligible filters
  · rw [if_pos hce]
    have hl : lookupCache (buildCacheKey page filters) (clearCache st).allFossilsCache
        = none := rfl
    rw [hl]
    exact fetchAllMiss_calls_pos be (clearCache st) page pageSize filters
  · rw [if_neg hce]
    exact fetchAllMiss_calls_pos be (clearCache st) page pageSize filters

/-- Claim C10: `fetchUserFossils` never rejects — its promise outcome is
`ok` for every backend outcome and state — while `fetchAllFossils`
rethrows its data-query failure (shown at a concrete failing backend). -/
theorem claim_C10_user_fetch_never_rejects (be : Backend) (st : State)
    (filters : Option SearchFilters) :
    (fetchUserFossils be st filters).2.1 = Except.ok ()
    ∧ (fetchAllFossils failingBackend initialState 1 1 none).2.1
        = Except.error ⟨strLit "boom", true⟩ := by
  constructor
  · by_cases h : st.userFossilsCached && (serializeO filters == serializeO st.userFossilsFilters)
    · simp [fetchUserFossils, h]
    · rcases hcu : be.currentUser with _ | uid
      · simp [fetchUserFossils, h, fetchUserFossilsTry, hcu]
      · rcases hue : be.userDataError with _ | e
        · simp [fetchUserFossils, h, fetchUserFossilsTry, hcu, hue]
        · simp [fetchUserFossils, h, fetchUserFossilsTry, hcu, hue]
  · rfl

/-- Claim C6: when the backend data query fails on a cache miss,
`fetchAllFossils` records the failure's message (via `getErrorMessage`) in
the all-fossils error state, rethrows the error, resets the loading flag,
and leaves the fossils list, the total count, and the keyed page cache
unchanged. -/
theorem claim_C6_data_failure (be : Backend) (st : State) (page pageSize : Nat)
    (filters : Option SearchFilters) (e : JsErr)
    (hd : be.dataError = some e)
    (hmiss : cacheEligible filters = false
      ∨ lookupCache (buildCacheKey page filters) st.allFossilsCache = none) :
    (fetchAllFossils be st page pageSize filters).2.1 = Except.error e
    ∧ (fetchAllFossils be st page pageSize filters).1.errorAll = getErrorMessage e
    ∧ (fetchAllFossils be st page pageSize filters).1.loadingAll = false
    ∧ (fetchAllFossils be st page pageSize filters).1.allFossils = st.allFossils
    ∧ (fetchAllFossils be st page pageSize filters).1.allFossilsCount = st.allFossilsCount
    ∧ (fetchAllFossils be st page pageSize filters).1.allFossilsCache
        = st.allFossilsCache := by
  rw [fetchAllFossils_eq_miss be st page pageSize filters hmiss]
  simp [fetchAllMiss, hd]

/-- Witness for claim C6 at the concrete failing backend. -/
theorem claim_C6_data_failure_witness :
    failingBackend.dataError = some ⟨strLit "boom", true⟩
    ∧ (cacheEligible none = false
       ∨ lookupCache (buildCacheKey 1 none) initialState.allFossilsCache = none)
    ∧ ((fetchAllFossils failingBackend initialState 1 5 none).2.1
          = Except.error ⟨strLit "boom", true⟩
       ∧ (fetchAllFossils failingBackend initialState 1 5 none).1.errorAll
          = getErrorMessage ⟨strLit "boom", true⟩
       ∧ (fetchAllFossils failingBackend initialState 1 5 none).1.loadingAll = false
       ∧ (fetchAllFossils failingBackend initialState 1 5 none).1.allFossils
          = initialState.allFossils
       ∧ (fetchAllFossils failingBackend initialState 1 5 none).1.allFossilsCount
          = initialState.allFossilsCount
       ∧ (fetchAllFossils failingBackend initialState 1 5 none).1.allFossilsCache
          = initialState.allFossilsCache) :=
  ⟨rfl, Or.inr rfl,
   claim_C6_data_failure failingBackend initialState 1 5 none ⟨strLit "boom", true⟩
     rfl (Or.inr rfl)⟩

/-- Claim C9: with no authenticated user (and no cache hit),
`fetchUserFossils` records the locally-generated "must be logged in"
message, resolves normally, issues no query against the fossils table, and
leaves the user-fossils list and the cached flag unchanged. -/
theorem claim_C9_auth_required (be : Backend) (st : State) (filters : Option SearchFilters)
    (hu : be.currentUser = none)
    (hg : (st.userFossilsCached
          && (serializeO filters == serializeO st.userFossilsFilters)) = false) :
    (fetchUserFossils be st filters).1.errorUser = loginRequiredMsg
    ∧ (fetchUserFossils be st filters).2.1 = Except.ok ()
    ∧ (fetchUserFossils be st filters).2.2.2 = 0
    ∧ (fetchUserFossils be st filters).1.userFossils = st.userFossils
    ∧ (fetchUserFossils be st filters).1.userFossilsCached = st.userFossilsCached
    ∧ (fetchUserFossils be st filters).1.loadingUser = false := by
  unfold fetchUserFossils
  rw [if_neg (by simp [hg])]
  simp [fetchUserFossilsTry, hu]

/-- Witness for claim C9 at a concrete unauthenticated backend. -/
theorem claim_C9_auth_required_witness :
    (⟨[], none, none, none, none, none⟩ : Backend).currentUser = none
    ∧ (initialState.userFossilsCached
        && (serializeO none == serializeO initialState.userFossilsFilters)) = false
    ∧ ((fetchUserFossils ⟨[], none, none, none, none, none⟩ initialState none).1.errorUser
          = loginRequiredMsg
       ∧ (fetchUserFossils ⟨[], none, none, none, none, none⟩ initialState none).2.1
          = Except.ok ()
       ∧ (fetchUserFossils ⟨[], none, none, none, none, none⟩ initialState none).2.2.2 = 0
       ∧ (fetchUserFossils ⟨[], none, none, none, none, none⟩ initialState none).1.userFossils
          = initialState.userFossils
       ∧ (fetchUserFossils ⟨[], none, none, none, none, none⟩ initialState
            none).1.userFossilsCached = initialState.userFossilsCached
       ∧ (fetchUserFossils ⟨[], none, none, none, none, none⟩ initialState
            none).1.loadingUser = false) :=
  ⟨rfl, rfl,
   claim_C9_auth_required ⟨[], none, none, none, none, none⟩ initialState none rfl rfl⟩

/-- Claim C1 (counterexample): with two rows matching the free-text query
`a` and a page size of 1, the returned `totalCount` is 1 — the length of
the returned page slice — while the full backend-matching set refined by
the client-side predicate has 2 elements, contrary to the claim. -/
theorem claim_C1_counterexample :
    (fetchAllFossils exBackend initialState 1 1 (some exSearch)).2.1
      = Except.ok ⟨[exFossilA], 1⟩
    ∧ (filterFossils (runQuery exBackend.db (allDataQueryFor (some exSearch)))
        (some exSearch)).length = 2 := by
  constructor
  · decide
  · decide

/-- Claim C1 (amended): when a trimmed-nonempty free-text query is active
and the data queries succeed, the returned `totalCount` equals the length
of the returned page slice (the filtered full set, sliced to the page),
while the observable all-fossils count state is set to the filtered full
set's length. -/
theorem claim_C1_amended (be : Backend) (st : State) (page pageSize : Nat)
    (f : SearchFilters) (q : Str)
    (hq : f.searchQuery = some q) (ht : (jsTrim q).isEmpty = false)
    (hd : be.dataError = none) (ha : be.allDataError = none) :
    (fetchAllFossils be st page pageSize (some f)).2.1
      = Except.ok
          ⟨((filterFossils (runQuery be.db (allDataQueryFor (some f))) (some f)).drop
              (paginationFrom page pageSize)).take pageSize,
           (((filterFossils (runQuery be.db (allDataQueryFor (some f))) (some f)).drop
              (paginationFrom page pageSize)).take pageSize).length⟩
    ∧ (fetchAllFossils be st page pageSize (some f)).1.allFossilsCount
        = (filterFossils (runQuery be.db (allDataQueryFor (some f))) (some f)).length := by
  have hqt : strTruthy f.searchQuery = true := by
    rw [hq]
    cases q with
    | nil => simp [jsTrim, List.dropWhile] at ht
    | cons a as => rfl
  have hce := cacheEligible_false_of_search f hqt
  have hsa : searchActive (some f) = true := by simp [searchActive, hqt]
  rw [fetchAllFossils_eq_miss be st page pageSize (some f) (Or.inl hce)]
  simp [fetchAllMiss, hd, ha, hsa]

/-- Witness for the amended claim C1 at the concrete two-row backend. -/
theorem claim_C1_amended_witness :
    exSearch.searchQuery = some (strLit "a")
    ∧ (jsTrim (strLit "a")).isEmpty = false
    ∧ exBackend.dataError = none
    ∧ exBackend.allDataError = none
    ∧ ((fetchAllFossils exBackend initialState 1 1 (some exSearch)).2.1
        = Except.ok
            ⟨((filterFossils (runQuery exBackend.db (allDataQueryFor (some exSearch)))
                (some exSearch)).drop (paginationFrom 1 1)).take 1,
             (((filterFossils (runQuery exBackend.db (allDataQueryFor (some exSearch)))
                (some exSearch)).drop (paginationFrom 1 1)).take 1).length⟩
       ∧ (fetchAllFossils exBackend initialState 1 1 (some exSearch)).1.allFossilsCount
          = (filterFossils (runQuery exBackend.db (allDataQueryFor (some exSearch)))
              (some exSearch)).length) :=
  ⟨rfl, by decide, rfl, rfl,
   claim_C1_amended exBackend initialState 1 1 exSearch (strLit "a")
     rfl (by decide) rfl rfl⟩

/-- Claim C2 (counterexample): with a species-only filter set (no free-text
query), a repeated `fetchAllFossils` call with identical page and filters
issues 2 remote queries instead of being served from the cache. -/
theorem claim_C2_counterexample :
    (fetchAllFossils ⟨[], none, none, none, none, none⟩
      ((fetchAllFossils ⟨[], none, none, none, none, none⟩ initialState 1 10
          (some speciesOnly)).1)
      1 10 (some speciesOnly)).2.2 = 2 := by
  decide

/-- Claim C2 (amended): only a filter set that is absent or has every
field unset is served from the keyed cache — for such filters, after one
successful call, a repeated call with identical (page, filters) returns
the same `{fossils, totalCount}` pair with no new remote query; for any
filter set failing that guard, every call (an identical repeat included)
issues a positive number of remote queries, and when no free-text query
is active and the count and data queries succeed, the fetched page and
backend count are still written to the keyed cache under the call's key
and returned. -/
theorem claim_C2_amended (be : Backend) (st : State) (page pageSize : Nat)
    (filters filters2 : Option SearchFilters)
    (hc : cacheEligible filters = true) (hd : be.dataError = none)
    (hc2 : cacheEligible filters2 = false)
    (hs2 : searchActive filters2 = false) (hcnt : be.countError = none) :
    fetchAllFossils be (fetchAllFossils be st page pageSize filters).1 page pageSize filters
      = ((fetchAllFossils be st page pageSize filters).1,
         (fetchAllFossils be st page pageSize filters).2.1, 0)
    ∧ 0 < (fetchAllFossils be st page pageSize filters2).2.2
    ∧ lookupCache (buildCacheKey page filters2)
        (fetchAllFossils be st page pageSize filters2).1.allFossilsCache
      = some ⟨runQuery be.db (dataQueryFor page pageSize filters2),
              countRows be.db (countQueryFor filters2)⟩
    ∧ (fetchAllFossils be st page pageSize filters2).2.1
      = Except.ok ⟨runQuery be.db (dataQueryFor page pageSize filters2),
                   countRows be.db (countQueryFor filters2)⟩ := by
  refine ⟨?_, ?_, ?_, ?_⟩
  · have hs := searchActive_false_of_cacheEligible filters hc
    rcases hlk : lookupCache (buildCacheKey page filters) st.allFossilsCache with _ | c <;>
      simp [fetchAllFossils, fetchAllMiss, hc, hd, hs, hlk, lookupCache_cacheSet]
  · rw [fetchAllFossils_eq_miss be st page pageSize filters2 (Or.inl hc2)]
    exact fetchAllMiss_calls_pos be st page pageSize filters2
  · rw [fetchAllFossils_eq_miss be st page pageSize filters2 (Or.inl hc2)]
    simp [fetchAllMiss, hd, hcnt, hs2, lookupCache_cacheSet]
  · rw [fetchAllFossils_eq_miss be st page pageSize filters2 (Or.inl hc2)]
    simp [fetchAllMiss, hd, hcnt, hs2]

/-- Witness for the amended claim C2: a no-filter repeated call is a cache
hit, while a species-only filter set always fetches yet is cached. -/
theorem claim_C2_amended_witness :
    cacheEligible none = true
    ∧ (⟨[exFossilA], none, none, none, none, none⟩ : Backend).dataError = none
    ∧ cacheEligible (some speciesOnly) = false
    ∧ searchActive (some speciesOnly) = false
    ∧ (⟨[exFossilA], none, none, none, none, none⟩ : Backend).countError = none
    ∧ (fetchAllFossils ⟨[exFossilA], none, none, none, none, none⟩
        (fetchAllFossils ⟨[exFossilA], none, none, none, none, none⟩
          initialState 1 10 none).1 1 10 none
        = ((fetchAllFossils ⟨[exFossilA], none, none, none, none, none⟩
              initialState 1 10 none).1,
           (fetchAllFossils ⟨[exFossilA], none, none, none, none, none⟩
              initialState 1 10 none).2.1, 0)
       ∧ 0 < (fetchAllFossils ⟨[exFossilA], none, none, none, none, none⟩
              initialState 1 10 (some speciesOnly)).2.2
       ∧ lookupCache (buildCacheKey 1 (some speciesOnly))
           (fetchAllFossils ⟨[exFossilA], none, none, none, none, none⟩
              initialState 1 10 (some speciesOnly)).1.allFossilsCache
         = some ⟨runQuery [exFossilA] (dataQueryFor 1 10 (some speciesOnly)),
                 countRows [exFossilA] (countQueryFor (some speciesOnly))⟩
       ∧ (fetchAllFossils ⟨[exFossilA], none, none, none, none, none⟩
              initialState 1 10 (some speciesOnly)).2.1
         = Except.ok ⟨runQuery [exFossilA] (dataQueryFor 1 10 (some speciesOnly)),
                      countRows [exFossilA] (countQueryFor (some speciesOnly))⟩) :=
  ⟨rfl, rfl, by decide, rfl, rfl,
   claim_C2_amended ⟨[exFossilA], none, none, none, none, none⟩
     initialState 1 10 none (some speciesOnly) rfl rfl (by decide) rfl rfl⟩

/-- Claim C8: after a successful `fetchUserFossils filters` call, a repeated
call whose argument serializes identically is a no-op (same state, `ok`,
zero remote calls), while a call with a differently-serialized argument
performs a fresh fetch (an auth call and one fossils-table query) and, on
success, overwrites the cached flag and the stored filter set. -/
theorem claim_C8_user_filters_cache (be be2 : Backend) (st : State)
    (filters f2 f3 : Option SearchFilters) (uid uid2 : Str)
    (h1 : be.currentUser = some uid) (h2 : be.userDataError = none)
    (heq : serializeO f2 = serializeO filters)
    (hne : serializeO f3 ≠ serializeO filters)
    (h3 : be2.currentUser = some uid2) (h4 : be2.userDataError = none) :
    fetchUserFossils be2 (fetchUserFossils be st filters).1 f2
      = ((fetchUserFossils be st filters).1, Except.ok (), 0, 0)
    ∧ (fetchUserFossils be2 (fetchUserFossils be st filters).1 f3).2.2.1 = 1
    ∧ (fetchUserFossils be2 (fetchUserFossils be st filters).1 f3).2.2.2 = 1
    ∧ (fetchUserFossils be2 (fetchUserFossils be st filters).1 f3).1.userFossilsCached
        = true
    ∧ (fetchUserFossils be2 (fetchUserFossils be st filters).1 f3).1.userFossilsFilters
        = f3 := by
  obtain ⟨kc, kf⟩ := userCache_after_success be st filters uid h1 h2
  constructor
  · apply fetchUserFossils_hit
    rw [kc, kf, heq]
    simp
  · have hgf : ((fetchUserFossils be st filters).1.userFossilsCached
        && (serializeO f3
            == serializeO (fetchUserFossils be st filters).1.userFossilsFilters))
          = false := by
      rw [kf]
      have hb : (serializeO f3 == serializeO filters) = false := by
        simp [hne]
      rw [hb, Bool.and_false]
    obtain ⟨c1, c2, c3, c4⟩ :=
      fetchUserFossils_fresh be2 (fetchUserFossils be st filters).1 f3 uid2 hgf h3 h4
    exact ⟨c3, c4, c1, c2⟩

/-- Witness for claim C8: first call with no filters, repeat with no
filters, then a species-only filter set. -/
theorem claim_C8_user_filters_cache_witness :
    userBackend.currentUser = some (strLit "u")
    ∧ userBackend.userDataError = none
    ∧ serializeO none = serializeO none
    ∧ serializeO (some speciesOnly) ≠ serializeO none
    ∧ (fetchUserFossils userBackend (fetchUserFossils userBackend initialState none).1 none
        = ((fetchUserFossils userBackend initialState none).1, Except.ok (), 0, 0)
       ∧ (fetchUserFossils userBackend (fetchUserFossils userBackend initialState none).1
            (some speciesOnly)).2.2.1 = 1
       ∧ (fetchUserFossils userBackend (fetchUserFossils userBackend initialState none).1
            (some speciesOnly)).2.2.2 = 1
       ∧ (fetchUserFossils userBackend (fetchUserFossils userBackend initialState none).1
            (some speciesOnly)).1.userFossilsCached = true
       ∧ (fetchUserFossils userBackend (fetchUserFossils userBackend initialState none).1
            (some speciesOnly)).1.userFossilsFilters = some speciesOnly) :=
  ⟨rfl, rfl, rfl, by decide,
   claim_C8_user_filters_cache userBackend userBackend initialState none none
     (some speciesOnly) (strLit "u") (strLit "u") rfl rfl rfl (by decide) rfl rfl⟩

end FossilViewer
